import Mathlib

/-!
Shallow embedding of `src/main.py`, a script that inspects a FastAPI app's
route table and writes a pytest file whose test bodies come from a language
model.  Routes, the imported Python module, and the model chain are modelled
explicitly; the model chain is a parameter (an oracle returning either a
parsed dict or an exception message), since its behaviour is external.
All machine-level effects (file writing) are modelled as the string the
program writes, in the order the program writes it.
-/

namespace FastAPITestGen

/-- One registered route of a FastAPI app.  `path` and `methods` are `Option`s
because `get_endpoint_details` probes them with `hasattr`; `name` is read
unconditionally.  `response_model` and `body_field` are read with
`getattr(route, _, None)` and immediately rendered with `str`, so a present
attribute is modelled by its rendered string and an absent one by `none`. -/
structure Route where
  path : Option String
  methods : Option (List String)
  name : String
  response_model : Option String
  body_field : Option String
deriving DecidableEq

/-- Python `str` applied to an optional attribute value: `str(None)` renders
as `"None"`, and a present attribute is modelled by its rendered string. -/
def pyStr : Option String → String
  | none => "None"
  | some s => s

/-- The route-descriptor dict built by `get_endpoint_details`
(main.py lines 33-39): keys `path`, `method`, `name`, `response_model`,
`body_field`.  Note the singular key `method`, holding the whole collection
of HTTP methods. -/
structure Endpoint where
  path : String
  method : List String
  name : String
  response_model : String
  body_field : String
deriving DecidableEq

/-- main.py lines 28-40: loop over `app.routes`, keep routes that have both a
`methods` and a `path` attribute, and append one descriptor per kept route. -/
def get_endpoint_details : List Route → List Endpoint
  | [] => []
  | route :: rest =>
    match route.methods, route.path with
    | some ms, some p =>
        { path := p, method := ms, name := route.name,
          response_model := pyStr route.response_model,
          body_field := pyStr route.body_field } :: get_endpoint_details rest
    | _, _ => get_endpoint_details rest

/-- Python `s.replace(a, b)` for single-character `a`, `b`. -/
def replaceChar (s : String) (a b : Char) : String :=
  String.mk (s.data.map fun c => if c = a then b else c)

/-- Python `s.rstrip(chars)`: remove every trailing character that belongs to
the character set `cs` (not a suffix removal). -/
def rstrip (s : String) (cs : List Char) : String :=
  String.mk ((s.data.reverse.dropWhile fun c => c ∈ cs).reverse)

/-- The module name computed on main.py line 20:
`app_path.replace("/",".").replace("\\",".").rstrip(".py")`. -/
def importModuleName (app_path : String) : String :=
  rstrip (replaceChar (replaceChar app_path '/' '.') '\\' '.') ['.', 'p', 'y']

/-- The module name written into the generated file on main.py line 115:
`app_path.replace('/', '.').rstrip('.py')` — no backslash replacement here. -/
def fileModuleName (app_path : String) : String :=
  rstrip (replaceChar app_path '/' '.') ['.', 'p', 'y']

/-- Removal of a literal `".py"` suffix (what `rstrip(".py")` is often assumed
to do); used only to contrast with the actual `rstrip` behaviour. -/
def removeDotPySuffix (s : String) : String :=
  if s.data.reverse.take 3 = ['y', 'p', '.'] then
    String.mk (s.data.take (s.data.length - 3))
  else s

/-- A Python value bound to a module attribute, as far as `get_fastapi_app`
distinguishes them: either a FastAPI instance (carrying its routes) or
anything else. -/
inductive PyVal where
  | fastapiApp (routes : List Route)
  | otherVal (render : String)

/-- A Python module as seen through `getattr`: a partial map from attribute
names to values. -/
structure PyModule where
  attrs : String → Option PyVal

/-- main.py lines 17-26.  `import_module` is a parameter: it may fail (raise)
or return a module.  `getattr(module, app_name, None)` that is absent or not
a FastAPI instance raises a `ValueError`; the surrounding `except` converts
every failure into the generic `Exception("Failed to load FastAPI instance")`. -/
def get_fastapi_app (importResult : String → Except String PyModule)
    (app_path app_name : String) : Except String (List Route) :=
  match importResult (importModuleName app_path) with
  | Except.error _ => Except.error "Failed to load FastAPI instance"
  | Except.ok m =>
      match m.attrs app_name with
      | some (PyVal.fastapiApp app) => Except.ok app
      | _ => Except.error "Failed to load FastAPI instance"

/-- The dict handed to `chain.invoke` on main.py lines 91-97.  Every value is
a string; `method` is `",".join(endpoint["method"])`. -/
structure PromptInput where
  path : String
  method : String
  name : String
  response_model : String
  body_field : String
deriving DecidableEq

/-- main.py lines 91-97: the rendering of an endpoint descriptor into the
dict passed to `chain.invoke`. -/
def chainInput (endpoint : Endpoint) : PromptInput :=
  { path := endpoint.path,
    method := String.intercalate "," endpoint.method,
    name := endpoint.name,
    response_model := endpoint.response_model,
    body_field := endpoint.body_field }

/-- Python `result.get(key, dflt)` on a string-valued dict, modelled as an
association list. -/
def dictGet (d : List (String × String)) (key dflt : String) : String :=
  match d.find? fun kv => kv.fst == key with
  | some kv => kv.snd
  | none => dflt

/-- main.py lines 87-100.  `chain` stands for
`prompt_template | llm | output_parser` applied via `invoke`: it either
returns a parsed dict or raises (modelled as `Except.error` carrying
`str(e)`).  On success the `test_code` entry is returned, with a keyed
fallback; on exception a commented placeholder is returned. -/
def generated_test_case
    (chain : PromptInput → Except String (List (String × String)))
    (endpoint : Endpoint) : String :=
  match chain (chainInput endpoint) with
  | Except.ok result =>
      dictGet result "test_code"
        ("# Error: No test code generated for " ++ endpoint.path)
  | Except.error e =>
      "# Error generating test case for " ++ endpoint.path ++ ": " ++ e

/-- main.py line 13 sibling constants (lines 14-15). -/
def TEST_OUTPUT_DIR : String := "tests"

/-- main.py line 15. -/
def TEST_FILE_NAME : String := "test_endpoints.py"

/-- main.py line 115: the app-import line written into the generated file. -/
def appImportLine (app_path app_name : String) : String :=
  "from " ++ fileModuleName app_path ++ " import " ++ app_name ++ "\n\n"

/-- main.py line 116: the client-construction line, a fixed string naming the
literal identifier `app`. -/
def clientLine : String := "client = TestClient(app)\n\n"

/-- The five `f.write` calls of main.py lines 112-116, in program order. -/
def headerWrites (app_path app_name : String) : List String :=
  ["from fastapi.testclient import TestClient\n",
   "import pytest\n",
   "import httpx\n\n",
   appImportLine app_path app_name,
   clientLine]

/-- Concatenation of a list of written strings, in order. -/
def concatAll : List String → String
  | [] => ""
  | s :: rest => s ++ concatAll rest

/-- The write loop of main.py lines 118-120: for each endpoint, append the
generated block plus two newlines to the file contents accumulated so far. -/
def writeLoop (chain : PromptInput → Except String (List (String × String)))
    (endpoints : List Endpoint) (acc : String) : String :=
  match endpoints with
  | [] => acc
  | endpoint :: rest =>
      writeLoop chain rest (acc ++ (generated_test_case chain endpoint ++ "\n\n"))

/-- The full contents of the file written by `generate_test`
(main.py lines 111-120) on a run that reaches file writing: the header writes
followed by the per-endpoint loop. -/
def generate_test_output (app_path app_name : String)
    (chain : PromptInput → Except String (List (String × String)))
    (routes : List Route) : String :=
  writeLoop chain (get_endpoint_details routes)
    (concatAll (headerWrites app_path app_name))

/-- main.py lines 103-120 as a function of the import oracle and the model
chain: the app is loaded first; only on success is the file content produced. -/
def generate_test (importResult : String → Except String PyModule)
    (app_path app_name : String)
    (chain : PromptInput → Except String (List (String × String)))
    : Except String String :=
  match get_fastapi_app importResult app_path app_name with
  | Except.error e => Except.error e
  | Except.ok routes => Except.ok (generate_test_output app_path app_name chain routes)

/-- The parsed command line of main.py lines 126-130. -/
structure Args where
  app_path : String
  app_name : String
  output_dir : String
deriving DecidableEq

/-- main.py lines 126-130: each flag is optional and falls back to its
declared default. -/
def parse_args (appPathArg appNameArg outputDirArg : Option String) : Args :=
  { app_path := appPathArg.getD "main",
    app_name := appNameArg.getD "app",
    output_dir := outputDirArg.getD TEST_OUTPUT_DIR }

/-- main.py line 108: `Path(out_dir) / TEST_FILE_NAME`. -/
def output_file (out_dir : String) : String := out_dir ++ "/" ++ TEST_FILE_NAME

/-- A field value as it travels through the pipeline: the descriptor holds the
method collection, while every value handed to `chain.invoke` is a string. -/
inductive FieldVal where
  | strVal (v : String)
  | listVal (v : List String)
deriving DecidableEq

/-- The descriptor's field values as extracted (main.py lines 33-39). -/
def extractedFieldValues (endpoint : Endpoint) : List (String × FieldVal) :=
  [("path", FieldVal.strVal endpoint.path),
   ("method", FieldVal.listVal endpoint.method),
   ("name", FieldVal.strVal endpoint.name),
   ("response_model", FieldVal.strVal endpoint.response_model),
   ("body_field", FieldVal.strVal endpoint.body_field)]

/-- The field values handed to `chain.invoke` (main.py lines 91-97). -/
def invokedFieldValues (endpoint : Endpoint) : List (String × FieldVal) :=
  [("path", FieldVal.strVal endpoint.path),
   ("method", FieldVal.strVal (String.intercalate "," endpoint.method)),
   ("name", FieldVal.strVal endpoint.name),
   ("response_model", FieldVal.strVal endpoint.response_model),
   ("body_field", FieldVal.strVal endpoint.body_field)]

/-- The module-name transformation exactly as the claim words it: replace
every slash and backslash with a dot, then strip all trailing characters
drawn from the set containing the dot, the letter p and the letter y. -/
def c9_claimed_module_name (app_path : String) : String :=
  rstrip (replaceChar (replaceChar app_path '/' '.') '\\' '.') ['.', 'p', 'y']

/-- The prefix the C2 claim asserts: the three fixed import lines immediately
followed by the client-construction line. -/
def c2_claimed_prefix : String :=
  "from fastapi.testclient import TestClient\n" ++ "import pytest\n" ++
    "import httpx\n\n" ++ "client = TestClient(app)\n\n"

/-- A model chain that raises on every input, with `str(e)` rendering as
`"model unavailable"`. -/
def chainErr : PromptInput → Except String (List (String × String)) :=
  fun _ => Except.error "model unavailable"

/-- A model chain that succeeds on every input but returns a dict without a
`test_code` key. -/
def chainEmpty : PromptInput → Except String (List (String × String)) :=
  fun _ => Except.ok []

/-- A concrete endpoint descriptor with one HTTP method. -/
def ep0 : Endpoint :=
  { path := "/items", method := ["GET"], name := "read_items",
    response_model := "None", body_field := "None" }

/-- A concrete endpoint descriptor with two HTTP methods. -/
def ep1 : Endpoint :=
  { path := "/items", method := ["GET", "POST"], name := "items",
    response_model := "None", body_field := "None" }

/-- An import oracle on which every import raises. -/
def impFail : String → Except String PyModule :=
  fun _ => Except.error "No module named main"

theorem writeLoop_concat
    (chain : PromptInput → Except String (List (String × String)))
    (endpoints : List Endpoint) (acc : String) :
    writeLoop chain endpoints acc =
      acc ++ concatAll (endpoints.map fun e => generated_test_case chain e ++ "\n\n") := by
  induction endpoints generalizing acc with
  | nil => simp [writeLoop, concatAll]
  | cons e rest ih =>
      simp [writeLoop, concatAll, ih, String.append_assoc]

theorem append_mid_ne (a x y b : String) (h : x ≠ y) :
    a ++ x ++ b ≠ a ++ y ++ b := by
  intro he
  apply h
  apply String.ext
  have hd := congrArg String.data he
  simp only [String.data_append] at hd
  exact List.append_cancel_left (List.append_cancel_right hd)

/-- C1: `get_endpoint_details` yields exactly one descriptor per route having
both a `methods` and a `path` attribute — the filtered routes mapped, in
order, to descriptors whose `path` and `method` fields are the route's
attribute values verbatim — and routes lacking either attribute yield none. -/
theorem c1_descriptor_per_route (routes : List Route) :
    get_endpoint_details routes =
      (routes.filter fun r => r.methods.isSome && r.path.isSome).map fun r =>
        { path := r.path.getD "", method := r.methods.getD [], name := r.name,
          response_model := pyStr r.response_model,
          body_field := pyStr r.body_field } := by
  induction routes with
  | nil => rfl
  | cons r rest ih =>
      cases hm : r.methods with
      | none => simp [get_endpoint_details, hm, List.filter_cons, ih]
      | some ms =>
          cases hp : r.path with
          | none => simp [get_endpoint_details, hm, hp, List.filter_cons, ih]
          | some p => simp [get_endpoint_details, hm, hp, List.filter_cons, ih]

/-- C2 counterexample: with default arguments and no routes, the file does not
begin with the three fixed import lines immediately followed by the
client-construction line — the varying app-import line sits in between. -/
theorem c2_counterexample :
    (generate_test_output "main" "app" chainErr []).data.take
      c2_claimed_prefix.data.length ≠ c2_claimed_prefix.data := by decide

/-- C2 amended: on every run that reaches file writing, the output begins with
the three fixed import lines, then an app-import line determined by
`app_path` and `app_name`, then the fixed client-construction line. -/
theorem c2_header_amended (app_path app_name : String)
    (chain : PromptInput → Except String (List (String × String)))
    (routes : List Route) :
    ∃ rest,
      generate_test_output app_path app_name chain routes =
        "from fastapi.testclient import TestClient\n" ++ "import pytest\n" ++
          "import httpx\n\n" ++ appImportLine app_path app_name ++
          "client = TestClient(app)\n\n" ++ rest := by
  refine ⟨concatAll ((get_endpoint_details routes).map fun e =>
    generated_test_case chain e ++ "\n\n"), ?_⟩
  rw [generate_test_output, writeLoop_concat]
  simp only [headerWrites, concatAll, clientLine, String.append_assoc,
    String.append_empty]

/-- C3: when the model chain raises on a route's rendered input,
`generated_test_case` returns the commented placeholder naming that route's
path (with the stringified exception) instead of propagating the failure. -/
theorem c3_failure_placeholder
    (chain : PromptInput → Except String (List (String × String)))
    (endpoint : Endpoint) (e : String)
    (h : chain (chainInput endpoint) = Except.error e) :
    generated_test_case chain endpoint =
      "# Error generating test case for " ++ endpoint.path ++ ": " ++ e := by
  unfold generated_test_case
  rw [h]

/-- Witness for C3 at a concrete endpoint and an always-raising chain. -/
theorem c3_witness :
    generated_test_case chainErr ep0 =
      "# Error generating test case for " ++ ep0.path ++ ": " ++ "model unavailable" :=
  c3_failure_placeholder chainErr ep0 "model unavailable" rfl

/-- C4: `get_fastapi_app` returns an app exactly when the import succeeds and
the named attribute is a FastAPI instance; in every other case (import
failure, missing attribute, non-FastAPI attribute) it fails with the generic
error `Failed to load FastAPI instance`. -/
theorem c4_app_loading (importResult : String → Except String PyModule)
    (app_path app_name : String) :
    (∀ app, get_fastapi_app importResult app_path app_name = Except.ok app ↔
        ∃ m, importResult (importModuleName app_path) = Except.ok m ∧
          m.attrs app_name = some (PyVal.fastapiApp app)) ∧
    ((¬ ∃ m app, importResult (importModuleName app_path) = Except.ok m ∧
          m.attrs app_name = some (PyVal.fastapiApp app)) →
      get_fastapi_app importResult app_path app_name =
        Except.error "Failed to load FastAPI instance") := by
  unfold get_fastapi_app
  cases h : importResult (importModuleName app_path) with
  | error e => simp
  | ok m =>
      cases hv : m.attrs app_name with
      | none => simp [hv]
      | some v =>
          cases v with
          | fastapiApp routes =>
              constructor
              · intro app
                simp [hv]
              · intro hn
                exact absurd ⟨m, routes, rfl, hv⟩ hn
          | otherVal r => simp [hv]

/-- Witness for C4: a failing import oracle yields the generic error. -/
theorem c4_witness :
    get_fastapi_app impFail "main" "app" =
      Except.error "Failed to load FastAPI instance" :=
  (c4_app_loading impFail "main" "app").2 (by
    rintro ⟨m, app, hm, -⟩
    simp [impFail] at hm)

/-- C5: with no flags supplied, the module path defaults to `main`, the
instance name to `app`, the output directory to `tests`, and the generated
file is `test_endpoints.py` inside that directory. -/
theorem c5_defaults :
    parse_args none none none =
      { app_path := "main", app_name := "app", output_dir := "tests" } ∧
    output_file (parse_args none none none).output_dir =
      "tests/test_endpoints.py" := by decide

/-- C6: the written file is the import boilerplate followed by exactly one
block per discovered descriptor, in descriptor order, each block being the
text returned for that route followed by two newlines. -/
theorem c6_one_block_per_route (app_path app_name : String)
    (chain : PromptInput → Except String (List (String × String)))
    (routes : List Route) :
    generate_test_output app_path app_name chain routes =
      concatAll (headerWrites app_path app_name) ++
        concatAll ((get_endpoint_details routes).map fun endpoint =>
          generated_test_case chain endpoint ++ "\n\n") :=
  writeLoop_concat chain (get_endpoint_details routes)
    (concatAll (headerWrites app_path app_name))

/-- C7 counterexample: the field values handed to `chain.invoke` are not the
descriptor's field values — already for a two-method route the handed
`method` value is the joined string `GET,POST`, not the extracted
collection. -/
theorem c7_counterexample :
    invokedFieldValues ep1 ≠ extractedFieldValues ep1 ∧
    ("method", FieldVal.strVal "GET,POST") ∈ invokedFieldValues ep1 ∧
    ("method", FieldVal.listVal ["GET", "POST"]) ∈ extractedFieldValues ep1 := by
  decide

/-- C7 amended: every descriptor field except `method` is handed to prompt
rendering unchanged, while the `method` collection is joined with commas into
a single string first. -/
theorem c7_fields_amended (endpoint : Endpoint) :
    (∀ k v, k ≠ "method" →
        ((k, v) ∈ extractedFieldValues endpoint ↔
          (k, v) ∈ invokedFieldValues endpoint)) ∧
    ("method", FieldVal.strVal (String.intercalate "," endpoint.method)) ∈
      invokedFieldValues endpoint := by
  constructor
  · intro k v hk
    simp only [extractedFieldValues, invokedFieldValues, List.mem_cons,
      List.not_mem_nil, or_false, Prod.mk.injEq]
    constructor
    · rintro (h | h | h | h | h) <;> first
        | exact Or.inl h
        | exact absurd h.1 hk
        | exact Or.inr (Or.inr (Or.inl h))
        | exact Or.inr (Or.inr (Or.inr (Or.inl h)))
        | exact Or.inr (Or.inr (Or.inr (Or.inr h)))
    · rintro (h | h | h | h | h) <;> first
        | exact Or.inl h
        | exact absurd h.1 hk
        | exact Or.inr (Or.inr (Or.inl h))
        | exact Or.inr (Or.inr (Or.inr (Or.inl h)))
        | exact Or.inr (Or.inr (Or.inr (Or.inr h)))
  · simp [invokedFieldValues]

/-- Witness for C7 amended at a concrete endpoint and the `path` field. -/
theorem c7_witness :
    (("path", FieldVal.strVal ep0.path) ∈ extractedFieldValues ep0 ↔
      ("path", FieldVal.strVal ep0.path) ∈ invokedFieldValues ep0) ∧
    ("method", FieldVal.strVal (String.intercalate "," ep0.method)) ∈
      invokedFieldValues ep0 :=
  ⟨(c7_fields_amended ep0).1 "path" (FieldVal.strVal ep0.path) (by decide),
   (c7_fields_amended ep0).2⟩

/-- C8: when the chain succeeds but the parsed dict has no `test_code` key,
`generated_test_case` returns the keyed fallback string naming the path. -/
theorem c8_missing_test_code
    (chain : PromptInput → Except String (List (String × String)))
    (endpoint : Endpoint) (result : List (String × String))
    (h1 : chain (chainInput endpoint) = Except.ok result)
    (h2 : result.find? (fun kv => kv.fst == "test_code") = none) :
    generated_test_case chain endpoint =
      "# Error: No test code generated for " ++ endpoint.path := by
  unfold generated_test_case
  rw [h1]
  show dictGet result "test_code" ("# Error: No test code generated for " ++ endpoint.path) =
    "# Error: No test code generated for " ++ endpoint.path
  unfold dictGet
  rw [h2]

/-- Witness for C8 with an empty parsed dict. -/
theorem c8_witness :
    generated_test_case chainEmpty ep0 =
      "# Error: No test code generated for " ++ ep0.path :=
  c8_missing_test_code chainEmpty ep0 [] rfl rfl

/-- C9 counterexample: the module name written into the generated file is not
obtained by replacing both separators — for a backslash path the written name
keeps the backslash while the claimed transformation dots it. -/
theorem c9_counterexample :
    fileModuleName "app\\main" ≠ c9_claimed_module_name "app\\main" ∧
    fileModuleName "app\\main" = "app\\main" ∧
    c9_claimed_module_name "app\\main" = "app.main" := by decide

/-- C9 amended: the module name used for the import replaces both separators
and then strips trailing characters from the dot-p-y set, exactly as the
claim describes; the name written into the file replaces only the forward
slash before the same strip; and the strip truncates `copy` to `co`, unlike
a literal `.py` suffix removal. -/
theorem c9_module_name_amended :
    (∀ s, importModuleName s = c9_claimed_module_name s) ∧
    (∀ s, fileModuleName s = rstrip (replaceChar s '/' '.') ['.', 'p', 'y']) ∧
    importModuleName "copy" = "co" ∧ fileModuleName "copy" = "co" ∧
    removeDotPySuffix "copy" = "copy" :=
  ⟨fun _ => rfl, fun _ => rfl, by decide, by decide, by decide⟩

/-- C10: the client-construction write is the fixed text naming the literal
identifier `app`, independent of the arguments; the preceding write imports
`app_name`; and for any `app_name` other than `app` that import line differs
from the one that would import the name `app`. -/
theorem c10_client_fixed (app_path app_name : String) :
    clientLine = "client = TestClient(app)" ++ "\n\n" ∧
    headerWrites app_path app_name =
      ["from fastapi.testclient import TestClient\n", "import pytest\n",
       "import httpx\n\n",
       "from " ++ fileModuleName app_path ++ " import " ++ app_name ++ "\n\n",
       "client = TestClient(app)\n\n"] ∧
    (app_name ≠ "app" →
      appImportLine app_path app_name ≠ appImportLine app_path "app") := by
  refine ⟨rfl, rfl, fun h => ?_⟩
  simp only [appImportLine]
  exact append_mid_ne ("from " ++ fileModuleName app_path ++ " import ")
    app_name "app" "\n\n" h

/-- Witness for C10 at a non-default instance name. -/
theorem c10_witness :
    clientLine = "client = TestClient(app)" ++ "\n\n" ∧
    appImportLine "main" "api" ≠ appImportLine "main" "app" :=
  ⟨(c10_client_fixed "main" "api").1,
   (c10_client_fixed "main" "api").2.2 (by decide)⟩

end FastAPITestGen
